import Mathlib

/-!
Shallow embedding of `google-prospeccao.py`: a Google-Maps prospecting
script that runs a text search and a nearby search, enriches each hit with
a place-details lookup, merges and deduplicates the rows, and exports a
five-column spreadsheet.  The remote HTTP provider is modelled as explicit
response values (`Except Unit _`, where `Except.error` stands for a raised
transport exception); the pagination loop consumes a list of responses,
one per issued request, and also returns the `pagetoken` parameter sent
with each request so that request counts and continuation tokens are
observable.
-/

namespace GoogleProspeccao

/-- Python truthiness of an optional string (`None` and `""` are falsy),
as used by `if localizacao:`, `if cidade:`, `if not next_page_token:`. -/
def pyTruthy : Option String → Bool
  | none => false
  | some s => !s.isEmpty

/-- Python truthiness of an optional number (`None` and `0` are falsy),
as used by `if raio:`. -/
def pyTruthyNat : Option Nat → Bool
  | none => false
  | some n => n != 0

/-- One search hit as decoded from a search response (`resultado`); a
`none` field models a key absent from the JSON object.  The `geometry`
coordinates are read into local variables in the source and never used,
so they are not part of the model. -/
structure Hit where
  name : Option String
  formatted_address : Option String
  vicinity : Option String
  place_id : Option String
deriving DecidableEq, Repr

/-- One page of a search response (`dados`): the status envelope, the
`results` list and the optional continuation token. -/
structure Page where
  status : String
  results : List Hit
  next_page_token : Option String
deriving DecidableEq, Repr

/-- The `result` object of a place-details response, restricted to the
three requested fields; a `none` field models an absent key.  The empty
Python dict `{}` is the all-`none` record. -/
structure Detalhes where
  name : Option String
  formatted_phone_number : Option String
  website : Option String
deriving DecidableEq, Repr

/-- The empty dict returned by `obter_detalhes_por_place_id` on failure. -/
def emptyDetalhes : Detalhes := ⟨none, none, none⟩

/-- Envelope of a place-details response (`dados`); `result = none` models
a payload without a `result` key (the `KeyError` is caught by the
surrounding `except`). -/
structure DetailsResp where
  status : String
  result : Option Detalhes
deriving DecidableEq, Repr

/-- A working-table row, the dict appended to `resultados`
(keys `Nome`, `Endereço`, `Telefone`, `Website`). -/
structure Row where
  Nome : String
  Endereco : String
  Telefone : String
  Website : String
deriving DecidableEq, Repr

/-- Python truthiness of the details dict (`if detalhes:`): a dict is
truthy iff it is non-empty, i.e. some key is present. -/
def detalhesTruthy (d : Detalhes) : Bool :=
  d.name.isSome || d.formatted_phone_number.isSome || d.website.isSome

/-- Embedding of `obter_detalhes_por_place_id`: on status `OK` return the
`result` object; on any other status, a missing `result` key, or a
transport exception, return the empty dict. -/
def obter_detalhes_por_place_id (resp : Except Unit DetailsResp) : Detalhes :=
  match resp with
  | Except.error _ => emptyDetalhes
  | Except.ok dados =>
    if dados.status = "OK" then
      match dados.result with
      | some r => r
      | none => emptyDetalhes
    else
      emptyDetalhes

/-- Embedding of the caller-side enrichment in the search loops:
`if detalhes:` take each of phone/website/detail-name with default
`"N/A"`, else set all three to `"N/A"`.  Components:
(telefone, website, razao_social_detalhada). -/
def caller_enrich (detalhes : Detalhes) : String × String × String :=
  if detalhesTruthy detalhes then
    (detalhes.formatted_phone_number.getD "N/A",
     detalhes.website.getD "N/A",
     detalhes.name.getD "N/A")
  else
    ("N/A", "N/A", "N/A")

/-- Row built from one text-search hit (loop body of `buscar_textsearch`):
the address comes from `formatted_address`; `det` is the place-details
provider, indexed by the place id sent in the details request. -/
def mkRowText (det : String → Except Unit DetailsResp) (hit : Hit) : Row :=
  let detalhes := obter_detalhes_por_place_id (det (hit.place_id.getD "N/A"))
  let e := caller_enrich detalhes
  { Nome := hit.name.getD "N/A"
    Endereco := hit.formatted_address.getD "N/A"
    Telefone := e.1
    Website := e.2.1 }

/-- Row built from one nearby-search hit (loop body of
`buscar_nearbysearch`): identical to the text-search body except that the
address comes from `vicinity`. -/
def mkRowNearby (det : String → Except Unit DetailsResp) (hit : Hit) : Row :=
  let detalhes := obter_detalhes_por_place_id (det (hit.place_id.getD "N/A"))
  let e := caller_enrich detalhes
  { Nome := hit.name.getD "N/A"
    Endereco := hit.vicinity.getD "N/A"
    Telefone := e.1
    Website := e.2.1 }

/-- Embedding of the shared pagination loop of `buscar_textsearch` and
`buscar_nearbysearch`.  `pages` is the sequence of provider responses,
one per issued request (`Except.error` = transport exception on that
request); `acc` is `resultados` so far; `tok` is the current `pagetoken`
request parameter (`none` = key absent).  Returns the final row list
together with the `pagetoken` parameter of every issued request, or
`none` when the loop would issue more requests than `pages` supplies. -/
def buscar_loop (mk : Hit → Row) :
    List (Except Unit Page) → List Row → Option String →
    Option (List Row × List (Option String))
  | [], _, _ => none
  | (Except.error _) :: _, acc, tok =>
    -- the exception is caught; the accumulated rows are returned
    some (acc, [tok])
  | (Except.ok dados) :: rest, acc, tok =>
    if dados.status = "OK" then
      let acc2 := acc ++ dados.results.map mk
      if pyTruthy dados.next_page_token then
        (buscar_loop mk rest acc2 dados.next_page_token).map
          (fun rt => (rt.1, tok :: rt.2))
      else
        some (acc2, [tok])
    else
      some (acc, [tok])

/-- Embedding of `buscar_textsearch` as a run of the pagination loop with
the text-search row builder, starting with no rows and no `pagetoken`. -/
def buscar_textsearch (det : String → Except Unit DetailsResp)
    (pages : List (Except Unit Page)) :
    Option (List Row × List (Option String)) :=
  buscar_loop (mkRowText det) pages [] none

/-- Embedding of `buscar_nearbysearch` as a run of the pagination loop
with the nearby-search row builder. -/
def buscar_nearbysearch (det : String → Except Unit DetailsResp)
    (pages : List (Except Unit Page)) :
    Option (List Row × List (Option String)) :=
  buscar_loop (mkRowNearby det) pages [] none

/-- Helper of `drop_duplicates`: keep the rows not yet seen, scanning left
to right. -/
def dedupAux (seen : List Row) : List Row → List Row
  | [] => []
  | r :: rest =>
    if r ∈ seen then dedupAux seen rest
    else r :: dedupAux (r :: seen) rest

/-- Embedding of `DataFrame.drop_duplicates()`: remove rows equal on all
four fields, keeping the first occurrence, preserving order. -/
def drop_duplicates (rows : List Row) : List Row :=
  dedupAux [] rows

/-- Embedding of `buscar_empresas_por_razao_social`: run both strategies,
concatenate text-search rows first, then drop duplicate rows. -/
def buscar_empresas_por_razao_social (det : String → Except Unit DetailsResp)
    (textPages nearbyPages : List (Except Unit Page)) : Option (List Row) :=
  match buscar_textsearch det textPages, buscar_nearbysearch det nearbyPages with
  | some t, some n => some (drop_duplicates (t.1 ++ n.1))
  | _, _ => none

/-- Parameters of the text-search request as built by `buscar_textsearch`
before the loop; a `none` optional parameter models an absent key. -/
structure TextSearchParams where
  query : String
  key : String
  location : Option String
  radius : Option Nat
deriving DecidableEq, Repr

/-- Embedding of the parameter construction at the top of
`buscar_textsearch`: location and radius are added when truthy, and city
and state are appended to the free-text query. -/
def textsearch_params (razao_social : String) (api_key : String)
    (localizacao : Option String) (radius : Option Nat)
    (cidade estado : Option String) : TextSearchParams :=
  let q0 := razao_social
  let q1 := if pyTruthy cidade then q0 ++ " in " ++ cidade.getD "" else q0
  let q2 := if pyTruthy estado then q1 ++ ", " ++ estado.getD "" else q1
  { query := q2
    key := api_key
    location := if pyTruthy localizacao then localizacao else none
    radius := if pyTruthyNat radius then radius else none }

/-- The `geometry.location` object of a geocoding candidate; `lat`/`lng`
are kept as their decimal renderings. -/
structure GeoLocation where
  lat : String
  lng : String
deriving DecidableEq, Repr

/-- One geocoding candidate; `location = none` models a candidate without
the `geometry.location` chain (the `KeyError` is caught). -/
structure GeoResult where
  location : Option GeoLocation
deriving DecidableEq, Repr

/-- Envelope of a geocoding response. -/
structure GeoResp where
  status : String
  results : List GeoResult
deriving DecidableEq, Repr

/-- Embedding of `obter_coordenadas`: one geocoding request; on status
`OK` compose the first candidate's coordinates as "lat,lng"; on any other
status, an empty candidate list, a missing location (all caught
exceptions), or a transport exception, return `none`. -/
def obter_coordenadas (resp : Except Unit GeoResp) : Option String :=
  match resp with
  | Except.error _ => none
  | Except.ok dados =>
    if dados.status = "OK" then
      match dados.results.head? with
      | none => none
      | some r =>
        match r.location with
        | none => none
        | some loc => some (loc.lat ++ "," ++ loc.lng)
    else
      none

/-- A working-table row as a column-labelled record (column name, value),
in the DataFrame's column order `Nome`, `Endereço`, `Telefone`,
`Website`. -/
def df_row (r : Row) : List (String × String) :=
  [("Nome", r.Nome), ("Endereco", r.Endereco),
   ("Telefone", r.Telefone), ("Website", r.Website)]

/-- The column renaming applied by `salvar_resultados`. -/
def column_rename (c : String) : String :=
  if c = "Endereco" then "REGIAO"
  else if c = "Nome" then "NOME DA EMPRESA"
  else if c = "Telefone" then "TELEFONE"
  else if c = "Website" then "SITE"
  else c

/-- Apply a column renaming to a labelled row (`DataFrame.rename`). -/
def rename_columns (f : String → String) (row : List (String × String)) :
    List (String × String) :=
  row.map (fun p => (f p.1, p.2))

/-- Add the constant empty `NOME DO CONTATO` column (appended last). -/
def add_contato (row : List (String × String)) : List (String × String) :=
  row ++ [("NOME DO CONTATO", "")]

/-- Column projection/reordering (`df[[...]]`): select the named columns
in the given order. -/
def select_columns (cols : List String) (row : List (String × String)) :
    List (String × String) :=
  cols.filterMap (fun c => (row.lookup c).map (fun v => (c, v)))

/-- The export schema, in order. -/
def export_columns : List String :=
  ["REGIAO", "NOME DA EMPRESA", "NOME DO CONTATO", "TELEFONE", "SITE"]

/-- Embedding of `salvar_resultados`: rename the columns, add the blank
contact column, and project onto the five export columns in order; the
written table is the list of labelled rows (no city filtering). -/
def salvar_resultados (resultados : List Row) : List (List (String × String)) :=
  resultados.map
    (fun r => select_columns export_columns
      (add_contato (rename_columns column_rename (df_row r))))

/-- Observable outcome of the `__main__` flow: how many requests each
strategy issued and whether the export step ran. -/
structure MainResult where
  textRequests : Nat
  nearbyRequests : Nat
  exported : Bool
deriving DecidableEq, Repr

/-- Embedding of the `__main__` flow: resolve coordinates; if they are
falsy, abort (no search request, no export); otherwise run the
aggregator's two strategies and export when the combined table is
non-empty.  `none` when a search loop would need more provider responses
than supplied. -/
def mainFlow (det : String → Except Unit DetailsResp)
    (textPages nearbyPages : List (Except Unit Page))
    (geoResp : Except Unit GeoResp) : Option MainResult :=
  let localizacao := obter_coordenadas geoResp
  if pyTruthy localizacao then
    match buscar_textsearch det textPages, buscar_nearbysearch det nearbyPages with
    | some t, some n =>
      let resultados := drop_duplicates (t.1 ++ n.1)
      some { textRequests := t.2.length
             nearbyRequests := n.2.length
             exported := !resultados.isEmpty }
    | _, _ => none
  else
    some { textRequests := 0, nearbyRequests := 0, exported := false }

/-- All rows produced by a list of all-`OK` pages, in order. -/
def pagesRows (mk : Hit → Row) (pages : List Page) : List Row :=
  (pages.map (fun p => p.results.map mk)).flatten

/-! ### Properties of deduplication -/

theorem mem_dedupAux (r : Row) (l : List Row) :
    ∀ seen, r ∈ dedupAux seen l ↔ r ∈ l ∧ r ∉ seen := by
  induction l with
  | nil => intro seen; simp [dedupAux]
  | cons x rest ih =>
    intro seen
    by_cases hx : x ∈ seen
    · rw [show dedupAux seen (x :: rest) = dedupAux seen rest from by
        simp [dedupAux, hx], ih seen]
      simp only [List.mem_cons]
      constructor
      · rintro ⟨h1, h2⟩
        exact ⟨Or.inr h1, h2⟩
      · rintro ⟨rfl | h1, h2⟩
        · exact absurd hx h2
        · exact ⟨h1, h2⟩
    · rw [show dedupAux seen (x :: rest) = x :: dedupAux (x :: seen) rest from by
        simp [dedupAux, hx]]
      simp only [List.mem_cons, ih (x :: seen)]
      constructor
      · rintro (rfl | ⟨h1, h2⟩)
        · exact ⟨Or.inl rfl, hx⟩
        · exact ⟨Or.inr h1, fun h => h2 (Or.inr h)⟩
      · rintro ⟨rfl | h1, h2⟩
        · exact Or.inl rfl
        · by_cases hrx : r = x
          · exact Or.inl hrx
          · refine Or.inr ⟨h1, fun h => ?_⟩
            rcases h with h | h
            · exact hrx h
            · exact h2 h

theorem nodup_dedupAux (l : List Row) : ∀ seen, (dedupAux seen l).Nodup := by
  induction l with
  | nil => intro seen; simp [dedupAux]
  | cons x rest ih =>
    intro seen
    by_cases hx : x ∈ seen
    · simpa [dedupAux, hx] using ih seen
    · rw [show dedupAux seen (x :: rest) = x :: dedupAux (x :: seen) rest from by
        simp [dedupAux, hx]]
      refine List.nodup_cons.2 ⟨fun hmem => ?_, ih (x :: seen)⟩
      exact ((mem_dedupAux x rest (x :: seen)).1 hmem).2 (List.mem_cons_self x seen)

theorem dedupAux_sublist (l : List Row) : ∀ seen, (dedupAux seen l).Sublist l := by
  induction l with
  | nil => intro seen; simp [dedupAux]
  | cons x rest ih =>
    intro seen
    by_cases hx : x ∈ seen
    · rw [show dedupAux seen (x :: rest) = dedupAux seen rest from by
        simp [dedupAux, hx]]
      exact (ih seen).trans (List.sublist_cons_self x rest)
    · rw [show dedupAux seen (x :: rest) = x :: dedupAux (x :: seen) rest from by
        simp [dedupAux, hx]]
      exact (ih (x :: seen)).cons₂ x

theorem pairwise_mono_mem {α : Type} {R S : α → α → Prop} :
    ∀ {l : List α}, (∀ a ∈ l, ∀ b ∈ l, R a b → S a b) → l.Pairwise R → l.Pairwise S := by
  intro l
  induction l with
  | nil => intro _ _; exact List.Pairwise.nil
  | cons x rest ih =>
    intro h hp
    rcases List.pairwise_cons.1 hp with ⟨h1, h2⟩
    refine List.pairwise_cons.2 ⟨fun b hb => ?_, ih ?_ h2⟩
    · exact h x (List.mem_cons_self x rest) b (List.mem_cons_of_mem x hb) (h1 b hb)
    · intro a ha b hb hr
      exact h a (List.mem_cons_of_mem x ha) b (List.mem_cons_of_mem x hb) hr

theorem dedupAux_pairwise_indexOf (l : List Row) : ∀ seen,
    (dedupAux seen l).Pairwise (fun a b => l.indexOf a < l.indexOf b) := by
  induction l with
  | nil => intro seen; simp [dedupAux]
  | cons x rest ih =>
    intro seen
    by_cases hx : x ∈ seen
    · rw [show dedupAux seen (x :: rest) = dedupAux seen rest from by
        simp [dedupAux, hx]]
      refine pairwise_mono_mem ?_ (ih seen)
      intro a ha b hb hr
      have ha2 := (mem_dedupAux a rest seen).1 ha
      have hb2 := (mem_dedupAux b rest seen).1 hb
      have hax : x ≠ a := fun h => ha2.2 (h ▸ hx)
      have hbx : x ≠ b := fun h => hb2.2 (h ▸ hx)
      rw [List.indexOf_cons_ne rest hax, List.indexOf_cons_ne rest hbx]
      exact Nat.succ_lt_succ hr
    · rw [show dedupAux seen (x :: rest) = x :: dedupAux (x :: seen) rest from by
        simp [dedupAux, hx]]
      refine List.pairwise_cons.2 ⟨fun b hb => ?_, ?_⟩
      · have hb2 := (mem_dedupAux b rest (x :: seen)).1 hb
        have hbx : x ≠ b := fun h => hb2.2 (h ▸ List.mem_cons_self x seen)
        rw [List.indexOf_cons_self, List.indexOf_cons_ne rest hbx]
        exact Nat.succ_pos _
      · refine pairwise_mono_mem ?_ (ih (x :: seen))
        intro a ha b hb hr
        have ha2 := (mem_dedupAux a rest (x :: seen)).1 ha
        have hb2 := (mem_dedupAux b rest (x :: seen)).1 hb
        have hax : x ≠ a := fun h => ha2.2 (h ▸ List.mem_cons_self x seen)
        have hbx : x ≠ b := fun h => hb2.2 (h ▸ List.mem_cons_self x seen)
        rw [List.indexOf_cons_ne rest hax, List.indexOf_cons_ne rest hbx]
        exact Nat.succ_lt_succ hr

/-! ### Concrete inputs used by witnesses -/

/-- A details provider whose every request fails with a transport error. -/
def det0 : String → Except Unit DetailsResp := fun _ => Except.error ()

/-- A text-search hit. -/
def hitA : Hit := ⟨some "Acme", some "Addr", none, some "pid1"⟩

/-- A nearby-search hit producing the same row as `hitA`. -/
def hitB : Hit := ⟨some "Acme", none, some "Addr", some "pid1"⟩

/-- The row both hits produce under `det0`. -/
def rowA : Row := ⟨"Acme", "Addr", "N/A", "N/A"⟩

/-- A single `OK` text-search page with no continuation token. -/
def pageT : Page := ⟨"OK", [hitA], none⟩

/-- A single `OK` nearby-search page with no continuation token. -/
def pageN : Page := ⟨"OK", [hitB], none⟩

/-! ### Claims -/

/-- C1: the aggregator runs the text-search and nearby-search strategies
on the same query, concatenates their row lists with the text-search rows
first, and removes exact-duplicate rows keeping the first occurrence and
preserving the order of survivors; every distinct row appears exactly
once, in first-seen order. -/
theorem claim_C1 (det : String → Except Unit DetailsResp)
    (tp np : List (Except Unit Page)) (ts ns : List Row)
    (ttoks ntoks : List (Option String))
    (ht : buscar_textsearch det tp = some (ts, ttoks))
    (hn : buscar_nearbysearch det np = some (ns, ntoks)) :
    buscar_empresas_por_razao_social det tp np = some (drop_duplicates (ts ++ ns))
    ∧ (drop_duplicates (ts ++ ns)).Nodup
    ∧ (∀ r : Row, r ∈ drop_duplicates (ts ++ ns) ↔ r ∈ ts ++ ns)
    ∧ (drop_duplicates (ts ++ ns)).Sublist (ts ++ ns)
    ∧ (drop_duplicates (ts ++ ns)).Pairwise
        (fun a b => (ts ++ ns).indexOf a < (ts ++ ns).indexOf b) := by
  refine ⟨?_, nodup_dedupAux (ts ++ ns) [],
    fun r => by simpa using mem_dedupAux r (ts ++ ns) [],
    dedupAux_sublist (ts ++ ns) [],
    dedupAux_pairwise_indexOf (ts ++ ns) []⟩
  simp [buscar_empresas_por_razao_social, ht, hn]

/-- Witness for C1 at a concrete pair of one-page runs whose single rows
coincide: the aggregated table holds the row once. -/
theorem claim_C1_witness :
    buscar_empresas_por_razao_social det0 [Except.ok pageT] [Except.ok pageN]
      = some [rowA] := by
  have h := claim_C1 det0 [Except.ok pageT] [Except.ok pageN]
    [rowA] [rowA] [none] [none] (by decide) (by decide)
  exact h.1.trans (by decide)

/-- Either an optional field is absent and the default is returned, or
the returned value is the field's. -/
theorem getD_cases (o : Option String) :
    o.getD "N/A" = "N/A" ∨ o = some (o.getD "N/A") := by
  cases o <;> simp

theorem caller_enrich_phone (d : Detalhes) :
    (caller_enrich d).1 = "N/A"
      ∨ d.formatted_phone_number = some (caller_enrich d).1 := by
  unfold caller_enrich
  cases h : detalhesTruthy d
  · simp
  · simp only [if_true]
    exact getD_cases d.formatted_phone_number

theorem caller_enrich_website (d : Detalhes) :
    (caller_enrich d).2.1 = "N/A" ∨ d.website = some (caller_enrich d).2.1 := by
  unfold caller_enrich
  cases h : detalhesTruthy d
  · simp
  · simp only [if_true]
    exact getD_cases d.website

/-- C2: every produced row has all four fields populated, each with
either a value from the provider payload or the sentinel "N/A", under
both strategies, whatever fields the payloads omit. -/
theorem claim_C2 (det : String → Except Unit DetailsResp) (hit : Hit) :
    ((mkRowText det hit).Nome = "N/A" ∨ hit.name = some (mkRowText det hit).Nome)
    ∧ ((mkRowText det hit).Endereco = "N/A"
        ∨ hit.formatted_address = some (mkRowText det hit).Endereco)
    ∧ ((mkRowText det hit).Telefone = "N/A"
        ∨ (obter_detalhes_por_place_id (det (hit.place_id.getD "N/A"))).formatted_phone_number
            = some (mkRowText det hit).Telefone)
    ∧ ((mkRowText det hit).Website = "N/A"
        ∨ (obter_detalhes_por_place_id (det (hit.place_id.getD "N/A"))).website
            = some (mkRowText det hit).Website)
    ∧ ((mkRowNearby det hit).Nome = "N/A" ∨ hit.name = some (mkRowNearby det hit).Nome)
    ∧ ((mkRowNearby det hit).Endereco = "N/A"
        ∨ hit.vicinity = some (mkRowNearby det hit).Endereco)
    ∧ ((mkRowNearby det hit).Telefone = "N/A"
        ∨ (obter_detalhes_por_place_id (det (hit.place_id.getD "N/A"))).formatted_phone_number
            = some (mkRowNearby det hit).Telefone)
    ∧ ((mkRowNearby det hit).Website = "N/A"
        ∨ (obter_detalhes_por_place_id (det (hit.place_id.getD "N/A"))).website
            = some (mkRowNearby det hit).Website) :=
  ⟨getD_cases hit.name, getD_cases hit.formatted_address,
   caller_enrich_phone _, caller_enrich_website _,
   getD_cases hit.name, getD_cases hit.vicinity,
   caller_enrich_phone _, caller_enrich_website _⟩

/-- C5: the enricher returns the provider's result object on status OK
and the empty dict on any other status or transport failure; the caller
maps an OK result with all three fields absent, and an empty result, to
"N/A" everywhere.  The enricher consumes a single provider response by
construction. -/
theorem claim_C5 (dAny dAbs dBad : DetailsResp) (rAny rAbs : Detalhes) (e : Unit)
    (h1 : dAny.status = "OK") (h2 : dAny.result = some rAny)
    (h3 : dAbs.status = "OK") (h4 : dAbs.result = some rAbs)
    (hp : rAbs.formatted_phone_number = none) (hw : rAbs.website = none)
    (hn : rAbs.name = none)
    (hbad : dBad.status ≠ "OK") :
    obter_detalhes_por_place_id (Except.ok dAny) = rAny
    ∧ caller_enrich (obter_detalhes_por_place_id (Except.ok dAbs))
        = ("N/A", "N/A", "N/A")
    ∧ obter_detalhes_por_place_id (Except.ok dBad) = emptyDetalhes
    ∧ obter_detalhes_por_place_id (Except.error e) = emptyDetalhes
    ∧ caller_enrich emptyDetalhes = ("N/A", "N/A", "N/A") := by
  have hre : rAbs = emptyDetalhes := by
    obtain ⟨a, b, c⟩ := rAbs
    simp only at hp hw hn
    simp [emptyDetalhes, hp, hw, hn]
  refine ⟨by simp [obter_detalhes_por_place_id, h1, h2], ?_, ?_, rfl, rfl⟩
  · have : obter_detalhes_por_place_id (Except.ok dAbs) = rAbs := by
      simp [obter_detalhes_por_place_id, h3, h4]
    rw [this, hre]
    rfl
  · simp [obter_detalhes_por_place_id, hbad]

/-- Concrete detail responses for the C5 witness. -/
def dAny0 : DetailsResp := ⟨"OK", some ⟨some "X", some "123", some "w"⟩⟩

def dAbs0 : DetailsResp := ⟨"OK", some emptyDetalhes⟩

def dBad0 : DetailsResp := ⟨"REQUEST_DENIED", none⟩

/-- Witness for C5 at concrete detail responses. -/
theorem claim_C5_witness :
    obter_detalhes_por_place_id (Except.ok dAny0) = ⟨some "X", some "123", some "w"⟩
    ∧ caller_enrich (obter_detalhes_por_place_id (Except.ok dAbs0))
        = ("N/A", "N/A", "N/A")
    ∧ obter_detalhes_por_place_id (Except.ok dBad0) = emptyDetalhes
    ∧ obter_detalhes_por_place_id (Except.error ()) = emptyDetalhes
    ∧ caller_enrich emptyDetalhes = ("N/A", "N/A", "N/A") :=
  claim_C5 dAny0 dAbs0 dBad0 ⟨some "X", some "123", some "w"⟩ emptyDetalhes ()
    rfl rfl rfl rfl rfl rfl rfl (by decide)

/-- C6: when coordinate resolution yields an absent value, the whole run
aborts: no nearby-search request, no text-search request, no export. -/
theorem claim_C6 (det : String → Except Unit DetailsResp)
    (tp np : List (Except Unit Page)) (geoResp : Except Unit GeoResp)
    (h : obter_coordenadas geoResp = none) :
    mainFlow det tp np geoResp
      = some { textRequests := 0, nearbyRequests := 0, exported := false } := by
  simp [mainFlow, h, pyTruthy]

/-- Witness for C6 at a failing geocode transport. -/
theorem claim_C6_witness :
    mainFlow det0 [] [] (Except.error ())
      = some { textRequests := 0, nearbyRequests := 0, exported := false } :=
  claim_C6 det0 [] [] (Except.error ()) rfl

/-- C7: the coordinate resolver composes the first candidate's
coordinates as "lat,lng" on status OK, and returns `none` on any other
status or transport failure.  It consumes a single geocoding response by
construction. -/
theorem claim_C7 (resp bad : GeoResp) (e : Unit) (g : GeoResult)
    (loc : GeoLocation) (rest : List GeoResult)
    (h1 : resp.status = "OK") (h2 : resp.results = g :: rest)
    (h3 : g.location = some loc)
    (h4 : bad.status ≠ "OK") :
    obter_coordenadas (Except.ok resp) = some (loc.lat ++ "," ++ loc.lng)
    ∧ obter_coordenadas (Except.ok bad) = none
    ∧ obter_coordenadas (Except.error e) = none := by
  refine ⟨?_, ?_, rfl⟩
  · simp [obter_coordenadas, h1, h2, h3]
  · simp [obter_coordenadas, h4]

/-- Concrete geocoding responses for the C7 witness. -/
def geoOk0 : GeoResp := ⟨"OK", [⟨some ⟨"1.5", "-2.5"⟩⟩]⟩

def geoBad0 : GeoResp := ⟨"ZERO_RESULTS", []⟩

/-- Witness for C7 at concrete geocoding responses. -/
theorem claim_C7_witness :
    obter_coordenadas (Except.ok geoOk0) = some "1.5,-2.5"
    ∧ obter_coordenadas (Except.ok geoBad0) = none
    ∧ obter_coordenadas (Except.error ()) = none := by
  have h := claim_C7 geoOk0 geoBad0 () ⟨some ⟨"1.5", "-2.5"⟩⟩ ⟨"1.5", "-2.5"⟩ []
    rfl rfl rfl (by decide)
  exact ⟨h.1.trans (by decide), h.2.1, h.2.2⟩

/-- C8: the exported table has exactly the five columns REGIAO,
NOME DA EMPRESA, NOME DO CONTATO, TELEFONE, SITE in that order, with
REGIAO = address, NOME DA EMPRESA = name, NOME DO CONTATO = "" in every
row, TELEFONE = phone, SITE = website, and one exported row per input
row. -/
theorem claim_C8 (resultados : List Row) :
    (salvar_resultados resultados).length = resultados.length
    ∧ salvar_resultados resultados
        = resultados.map (fun r =>
            [("REGIAO", r.Endereco), ("NOME DA EMPRESA", r.Nome),
             ("NOME DO CONTATO", ""), ("TELEFONE", r.Telefone),
             ("SITE", r.Website)]) := by
  constructor
  · simp [salvar_resultados]
  · rfl

/-- C10: the text-search request also carries truthy location and radius
parameters, and appends city and state to the free-text query. -/
theorem claim_C10 (razao_social api_key l c e : String) (n : Nat)
    (hl : l ≠ "") (hn : n ≠ 0) (hc : c ≠ "") (he : e ≠ "") :
    (textsearch_params razao_social api_key (some l) (some n) (some c) (some e)).location
        = some l
    ∧ (textsearch_params razao_social api_key (some l) (some n) (some c) (some e)).radius
        = some n
    ∧ (textsearch_params razao_social api_key (some l) (some n) (some c) (some e)).query
        = razao_social ++ " in " ++ c ++ ", " ++ e
    ∧ (textsearch_params razao_social api_key (some l) (some n) (some c) (some e)).key
        = api_key := by
  have hlt : pyTruthy (some l) = true := by
    simp [pyTruthy, Bool.eq_false_iff, String.isEmpty_iff, hl]
  have hct : pyTruthy (some c) = true := by
    simp [pyTruthy, Bool.eq_false_iff, String.isEmpty_iff, hc]
  have het : pyTruthy (some e) = true := by
    simp [pyTruthy, Bool.eq_false_iff, String.isEmpty_iff, he]
  have hnt : pyTruthyNat (some n) = true := by
    simp [pyTruthyNat, hn]
  refine ⟨?_, ?_, ?_, rfl⟩
  · simp [textsearch_params, hlt]
  · simp [textsearch_params, hnt]
  · simp [textsearch_params, hct, het]

/-- Witness for C10 at concrete query parameters. -/
theorem claim_C10_witness :
    (textsearch_params "Acme" "KEY" (some "-23.5,-46.6") (some 23000)
        (some "Springfield") (some "IL")).location = some "-23.5,-46.6"
    ∧ (textsearch_params "Acme" "KEY" (some "-23.5,-46.6") (some 23000)
        (some "Springfield") (some "IL")).radius = some 23000
    ∧ (textsearch_params "Acme" "KEY" (some "-23.5,-46.6") (some 23000)
        (some "Springfield") (some "IL")).query = "Acme in Springfield, IL"
    ∧ (textsearch_params "Acme" "KEY" (some "-23.5,-46.6") (some 23000)
        (some "Springfield") (some "IL")).key = "KEY" := by
  have h := claim_C10 "Acme" "KEY" "-23.5,-46.6" "Springfield" "IL" 23000
    (by decide) (by decide) (by decide) (by decide)
  exact ⟨h.1, h.2.1, h.2.2.1.trans (by decide), h.2.2.2⟩

/-! ### Behaviour of the pagination loop -/

theorem pagesRows_cons (mk : Hit → Row) (p : Page) (l : List Page) :
    pagesRows mk (p :: l) = p.results.map mk ++ pagesRows mk l := by
  simp [pagesRows]

theorem buscar_loop_ok_cont (mk : Hit → Row) (dados : Page)
    (rest : List (Except Unit Page)) (acc : List Row) (tok : Option String)
    (hs : dados.status = "OK") (ht : pyTruthy dados.next_page_token = true) :
    buscar_loop mk (Except.ok dados :: rest) acc tok
      = (buscar_loop mk rest (acc ++ dados.results.map mk) dados.next_page_token).map
          (fun rt => (rt.1, tok :: rt.2)) := by
  simp [buscar_loop, hs, ht]

theorem buscar_loop_ok_last (mk : Hit → Row) (dados : Page)
    (rest : List (Except Unit Page)) (acc : List Row) (tok : Option String)
    (hs : dados.status = "OK") (ht : pyTruthy dados.next_page_token = false) :
    buscar_loop mk (Except.ok dados :: rest) acc tok
      = some (acc ++ dados.results.map mk, [tok]) := by
  simp [buscar_loop, hs, ht]

/-- A run over all-`OK` pages whose tokens continue exactly up to the last
page collects every page's rows and sends, as `pagetoken` of each request,
the token of the page before it. -/
theorem buscar_loop_all_ok (mk : Hit → Row) :
    ∀ (pages : List Page) (acc : List Row) (tok : Option String),
      pages ≠ [] →
      (∀ p ∈ pages, p.status = "OK") →
      (∀ i (h : i < pages.length),
        pyTruthy pages[i].next_page_token = decide (i + 1 < pages.length)) →
      buscar_loop mk (pages.map Except.ok) acc tok
        = some (acc ++ pagesRows mk pages,
            tok :: pages.dropLast.map Page.next_page_token) := by
  intro pages
  induction pages with
  | nil => intro acc tok hne _ _; exact absurd rfl hne
  | cons p rest ih =>
    intro acc tok _ hok htok
    have hp : p.status = "OK" := hok p (List.mem_cons_self p rest)
    cases rest with
    | nil =>
      have h0 : pyTruthy p.next_page_token = false := by
        simpa using htok 0 (by simp)
      rw [List.map_cons, List.map_nil,
        buscar_loop_ok_last mk p [] acc tok hp h0]
      simp [pagesRows]
    | cons q rest2 =>
      have h0 : pyTruthy p.next_page_token = true := by
        simpa using htok 0 (by simp)
      have hok2 : ∀ x ∈ q :: rest2, x.status = "OK" :=
        fun x hx => hok x (List.mem_cons_of_mem p hx)
      have htok2 : ∀ i (h : i < (q :: rest2).length),
          pyTruthy (q :: rest2)[i].next_page_token
            = decide (i + 1 < (q :: rest2).length) := by
        intro i h
        have h2 := htok (i + 1)
          (by simp only [List.length_cons] at h ⊢; omega)
        rw [List.getElem_cons_succ] at h2
        rw [h2]
        apply decide_eq_decide.mpr
        simp only [List.length_cons]
        omega
      have hrec := ih (acc ++ p.results.map mk) p.next_page_token
        (by simp) hok2 htok2
      rw [List.map_cons, buscar_loop_ok_cont mk p _ acc tok hp h0, hrec,
        Option.map_some']
      simp [pagesRows_cons, List.dropLast_cons₂, List.append_assoc]

/-- C3: over a synthetic provider of N consecutive OK pages where pages
1..N-1 carry a continuation token and page N does not, the runner issues
exactly N requests, supplies page i's token as the pagetoken of request
i+1 (request 1 carrying none), and terminates after the Nth response. -/
theorem claim_C3 (mk : Hit → Row) (pages : List Page)
    (hne : pages ≠ [])
    (hok : ∀ p ∈ pages, p.status = "OK")
    (htok : ∀ i (h : i < pages.length),
      pyTruthy pages[i].next_page_token = decide (i + 1 < pages.length)) :
    buscar_loop mk (pages.map Except.ok) [] none
      = some (pagesRows mk pages, none :: pages.dropLast.map Page.next_page_token)
    ∧ (none :: pages.dropLast.map Page.next_page_token).length = pages.length
    ∧ (∀ i, i + 1 < pages.length →
        (none :: pages.dropLast.map Page.next_page_token)[i + 1]?
          = pages[i]?.map Page.next_page_token) := by
  refine ⟨by simpa using buscar_loop_all_ok mk pages [] none hne hok htok, ?_, ?_⟩
  · have hpos : 0 < pages.length := List.length_pos.2 hne
    simp only [List.length_cons, List.length_map, List.length_dropLast]
    omega
  · intro i hi
    rw [List.getElem?_cons_succ, List.getElem?_map, List.dropLast_eq_take,
      List.getElem?_take, if_pos (by omega)]

/-- A two-page all-OK run for the C3 witness: page 1 carries a token,
page 2 does not. -/
def pages3 : List Page := [⟨"OK", [hitA], some "tok2"⟩, ⟨"OK", [], none⟩]

/-- Witness for C3 at a concrete two-page provider: two requests, the
second carrying page 1's token. -/
theorem claim_C3_witness :
    buscar_loop (mkRowText det0) (pages3.map Except.ok) [] none
      = some ([rowA], [none, some "tok2"]) := by
  have h := claim_C3 (mkRowText det0) pages3 (by decide) (by decide) (by decide)
  exact h.1.trans (by decide)

/-- C4: a transport failure after one or more processed pages is not
propagated: the loop returns exactly the rows accumulated before the
failure; in particular an OK page 1 followed by a failing request 2
yields the page-1 rows only. -/
theorem claim_C4 (mk : Hit → Row) (p : Page) (t : String) (e : Unit)
    (rest : List (Except Unit Page)) (acc : List Row) (tok : Option String)
    (h1 : p.status = "OK") (h2 : p.next_page_token = some t) (h3 : t ≠ "") :
    buscar_loop mk (Except.error e :: rest) acc tok = some (acc, [tok])
    ∧ buscar_loop mk (Except.ok p :: Except.error e :: rest) [] none
        = some (p.results.map mk, [none, some t]) := by
  constructor
  · rfl
  · have ht : pyTruthy p.next_page_token = true := by
      simp [h2, pyTruthy, Bool.eq_false_iff, String.isEmpty_iff, h3]
    rw [buscar_loop_ok_cont mk p _ [] none h1 ht, h2]
    rfl

/-- An OK page carrying a continuation token, for the C4 witness. -/
def pageTok : Page := ⟨"OK", [hitA], some "tok2"⟩

/-- Witness for C4: a concrete OK page followed by a transport error
yields only the first page's rows, in two requests. -/
theorem claim_C4_witness :
    buscar_loop (mkRowText det0) [Except.error (), Except.ok pageT] [rowA] (some "x")
      = some ([rowA], [some "x"])
    ∧ buscar_loop (mkRowText det0) [Except.ok pageTok, Except.error (), Except.ok pageT] [] none
      = some ([rowA], [none, some "tok2"]) := by
  have h := claim_C4 (mkRowText det0) pageTok "tok2" () [Except.ok pageT]
    [rowA] (some "x") rfl rfl (by decide)
  exact ⟨h.1, h.2.trans (by decide)⟩

/-! ### The detail payload's name field does not influence the output -/

/-- Two optional detail results that agree on phone and website but may
differ on the name field. -/
def resultAgree : Option Detalhes → Option Detalhes → Prop
  | none, none => True
  | some r1, some r2 =>
    r1.formatted_phone_number = r2.formatted_phone_number ∧ r1.website = r2.website
  | _, _ => False

/-- Two detail responses that differ at most in the payload's name
field. -/
def sameExceptName : Except Unit DetailsResp → Except Unit DetailsResp → Prop
  | Except.error _, Except.error _ => True
  | Except.ok d1, Except.ok d2 => d1.status = d2.status ∧ resultAgree d1.result d2.result
  | _, _ => False

theorem caller_enrich_agree (r1 r2 : Detalhes)
    (hp : r1.formatted_phone_number = r2.formatted_phone_number)
    (hw : r1.website = r2.website) :
    (caller_enrich r1).1 = (caller_enrich r2).1
    ∧ (caller_enrich r1).2.1 = (caller_enrich r2).2.1 := by
  obtain ⟨n1, p1, w1⟩ := r1
  obtain ⟨n2, p2, w2⟩ := r2
  simp only at hp hw
  subst hp
  subst hw
  cases p1 <;> cases w1 <;> cases n1 <;> cases n2 <;>
    simp [caller_enrich, detalhesTruthy]

theorem obter_enrich_agree (a b : Except Unit DetailsResp)
    (h : sameExceptName a b) :
    (caller_enrich (obter_detalhes_por_place_id a)).1
      = (caller_enrich (obter_detalhes_por_place_id b)).1
    ∧ (caller_enrich (obter_detalhes_por_place_id a)).2.1
      = (caller_enrich (obter_detalhes_por_place_id b)).2.1 := by
  cases a with
  | error ea =>
    cases b with
    | error eb => exact ⟨rfl, rfl⟩
    | ok d2 => exact absurd h (by simp [sameExceptName])
  | ok d1 =>
    cases b with
    | error eb => exact absurd h (by simp [sameExceptName])
    | ok d2 =>
      obtain ⟨hs, hr⟩ := h
      by_cases hok : d2.status = "OK"
      · cases hd1 : d1.result with
        | none =>
          cases hd2 : d2.result with
          | none =>
            simp [obter_detalhes_por_place_id, hs, hok, hd1, hd2]
          | some r2 =>
            rw [hd1, hd2] at hr
            exact absurd hr (by simp [resultAgree])
        | some r1 =>
          cases hd2 : d2.result with
          | none =>
            rw [hd1, hd2] at hr
            exact absurd hr (by simp [resultAgree])
          | some r2 =>
            rw [hd1, hd2] at hr
            have heq : obter_detalhes_por_place_id (Except.ok d1) = r1 := by
              simp [obter_detalhes_por_place_id, hs, hok, hd1]
            have heq2 : obter_detalhes_por_place_id (Except.ok d2) = r2 := by
              simp [obter_detalhes_por_place_id, hok, hd2]
            rw [heq, heq2]
            exact caller_enrich_agree r1 r2 hr.1 hr.2
      · have hne : d1.status ≠ "OK" := by rw [hs]; exact hok
        simp [obter_detalhes_por_place_id, hne, hok]

theorem mkRowText_agree (det1 det2 : String → Except Unit DetailsResp)
    (hagree : ∀ pid, sameExceptName (det1 pid) (det2 pid)) (hit : Hit) :
    mkRowText det1 hit = mkRowText det2 hit := by
  obtain ⟨h1, h2⟩ := obter_enrich_agree _ _ (hagree (hit.place_id.getD "N/A"))
  simp only [mkRowText, Row.mk.injEq]
  exact ⟨trivial, trivial, h1, h2⟩

theorem mkRowNearby_agree (det1 det2 : String → Except Unit DetailsResp)
    (hagree : ∀ pid, sameExceptName (det1 pid) (det2 pid)) (hit : Hit) :
    mkRowNearby det1 hit = mkRowNearby det2 hit := by
  obtain ⟨h1, h2⟩ := obter_enrich_agree _ _ (hagree (hit.place_id.getD "N/A"))
  simp only [mkRowNearby, Row.mk.injEq]
  exact ⟨trivial, trivial, h1, h2⟩

theorem buscar_loop_congr (mk1 mk2 : Hit → Row) (hmk : ∀ hit, mk1 hit = mk2 hit) :
    ∀ (pages : List (Except Unit Page)) (acc : List Row) (tok : Option String),
      buscar_loop mk1 pages acc tok = buscar_loop mk2 pages acc tok := by
  intro pages
  induction pages with
  | nil => intro acc tok; rfl
  | cons resp rest ih =>
    intro acc tok
    cases resp with
    | error e => rfl
    | ok dados =>
      have hmap : dados.results.map mk1 = dados.results.map mk2 :=
        List.map_congr_left (fun a _ => hmk a)
      simp only [buscar_loop, hmap, ih]

/-- C9: each row's name comes from the search hit's own top-level name
field; the detail payload's name is bound but never used, so two runs
whose detail providers differ only in the name field produce identical
outputs. -/
theorem claim_C9 (det1 det2 : String → Except Unit DetailsResp)
    (hagree : ∀ pid, sameExceptName (det1 pid) (det2 pid))
    (tp np : List (Except Unit Page)) (hit : Hit) :
    (mkRowText det1 hit).Nome = hit.name.getD "N/A"
    ∧ (mkRowNearby det1 hit).Nome = hit.name.getD "N/A"
    ∧ buscar_textsearch det1 tp = buscar_textsearch det2 tp
    ∧ buscar_nearbysearch det1 np = buscar_nearbysearch det2 np
    ∧ buscar_empresas_por_razao_social det1 tp np
        = buscar_empresas_por_razao_social det2 tp np := by
  have h3 : buscar_textsearch det1 tp = buscar_textsearch det2 tp :=
    buscar_loop_congr _ _ (mkRowText_agree det1 det2 hagree) tp [] none
  have h4 : buscar_nearbysearch det1 np = buscar_nearbysearch det2 np :=
    buscar_loop_congr _ _ (mkRowNearby_agree det1 det2 hagree) np [] none
  refine ⟨rfl, rfl, h3, h4, ?_⟩
  simp [buscar_empresas_por_razao_social, h3, h4]

/-- A details provider answering with name "A", for the C9 witness. -/
def det1w : String → Except Unit DetailsResp :=
  fun _ => Except.ok ⟨"OK", some ⟨some "A", some "123", none⟩⟩

/-- The same provider except the payload name is "B". -/
def det2w : String → Except Unit DetailsResp :=
  fun _ => Except.ok ⟨"OK", some ⟨some "B", some "123", none⟩⟩

/-- Witness for C9: two concrete runs differing only in the detail
payload's name produce the same output tables. -/
theorem claim_C9_witness :
    buscar_textsearch det1w [Except.ok pageT] = buscar_textsearch det2w [Except.ok pageT]
    ∧ buscar_empresas_por_razao_social det1w [Except.ok pageT] [Except.ok pageN]
        = buscar_empresas_por_razao_social det2w [Except.ok pageT] [Except.ok pageN] := by
  have h := claim_C9 det1w det2w
    (fun _ => ⟨rfl, rfl, rfl⟩) [Except.ok pageT] [Except.ok pageN] hitA
  exact ⟨h.2.2.1, h.2.2.2.2⟩

end GoogleProspeccao
